import Mathlib

/-!
Verification development for the OptiMUS staged modeling pipeline.

The definitions below are a shallow embedding of the three Python source
files of the repository:

* `generate_code.py` — the code synthesizer (`get_var_code`,
  `get_param_code`, `generate_code`);
* `main.py` — the per-problem pipeline driver (`process_single_dir`) and
  the batch execution over problem directories;
* `analyze_optimus.py` — the accuracy evaluator; we embed the per-problem
  output-resolution logic of `analyze_optimus_data`.

Python dictionaries that are iterated in insertion order are embedded as
association lists; Python exceptions are embedded with `Option`/`Except`;
file-system and stdout side effects are embedded as explicit effect
traces.  All definitions are executable.
-/

/-- Entry of the `parameters` mapping of a Problem State: shape, textual
definition, and an optional ground-truth value (kept abstract as a JSON
text here, since only its presence matters to the embedded code). -/
structure ParamInfo where
  shape : List Nat
  definition : String
  value : Option String := none
deriving DecidableEq, Repr

/-- Entry of the `variables` mapping of a Problem State.  The Python field
`type` is spelled `vtype` because `type` is reserved in Lean. -/
structure VarInfo where
  shape : List Nat
  vtype : String
  definition : String
deriving DecidableEq, Repr

/-- Entry of the `constraints` sequence: we keep the natural-language
description and the generated code fragment; only `code` is consumed by
the synthesizer. -/
structure Constraint where
  description : String := ""
  code : String
deriving DecidableEq, Repr

/-- The `objective` entity of a Problem State. -/
structure Objective where
  description : String := ""
  code : String
deriving DecidableEq, Repr

/-- The Problem State threaded through the pipeline (the `state` dict of
the Python code).  `parameters` and `variables` are insertion-ordered
mappings, embedded as association lists; the Python key `variables` is
spelled `variables'` because `variables` is reserved in Lean. -/
structure ProblemState where
  description : String
  parameters : List (String × ParamInfo)
  variables' : List (String × VarInfo)
  constraints : List Constraint
  objective : Objective
deriving DecidableEq, Repr

/-- One entry of the `parameters` table of `problem_info.json`, as read by
`generate_code` when `problem_dir` is given and the file exists. -/
structure ProblemInfoParam where
  shape : List Nat
  description : String
deriving DecidableEq, Repr

/-- Content of `problem_info.json` that `generate_code` consumes: its
`parameters` table.  `none` for the whole document models a missing
`parameters` key. -/
structure ProblemInfo where
  parameters : Option (List (String × ProblemInfoParam))
deriving DecidableEq, Repr

/-- Join a list of strings with a separator, as the Python
`sep.join(pieces)` does. -/
def joinSep (sep : String) : List String → String
  | [] => ""
  | [x] => x
  | x :: y :: xs => x ++ sep ++ joinSep sep (y :: xs)

/-- Render a shape the way a Python f-string renders a list of ints,
for example `[2, 3]` or `[]`. -/
def reprShape (shape : List Nat) : String :=
  "[" ++ joinSep (", ") (shape.map toString) ++ "]"

/-- Embedding of `get_var_code` from `generate_code.py` for the
`"gurobipy"` solver (the only implemented one): a variable with empty
shape is rendered as a scalar `model.addVar` declaration, any other shape
as a `model.addVars` declaration listing the dimension sizes. -/
def get_var_code (symbol : String) (shape : List Nat) (vtype : String)
    (defn : String) : String :=
  if shape = [] then
    symbol ++ " = model.addVar(vtype=GRB." ++ vtype.toUpper ++ ", name=\""
      ++ symbol ++ "\")\n"
  else
    symbol ++ " = model.addVars(" ++ joinSep (", ") (shape.map toString)
      ++ ", vtype=GRB." ++ vtype.toUpper ++ ", name=\"" ++ symbol ++ "\")\n"

/-- The scalar variable declaration emitted for an empty shape (used to
state the claim about `get_var_code`). -/
def scalarDecl (symbol : String) (vtype : String) : String :=
  symbol ++ " = model.addVar(vtype=GRB." ++ vtype.toUpper ++ ", name=\""
    ++ symbol ++ "\")\n"

/-- The indexed-family variable declaration emitted for a nonempty shape
(used to state the claim about `get_var_code`). -/
def familyDecl (symbol : String) (shape : List Nat) (vtype : String) : String :=
  symbol ++ " = model.addVars(" ++ joinSep (", ") (shape.map toString)
    ++ ", vtype=GRB." ++ vtype.toUpper ++ ", name=\"" ++ symbol ++ "\")\n"

/-- Embedding of `get_param_code` from `generate_code.py`. -/
def get_param_code (symbol : String) (shape : List Nat) (defn : String) : String :=
  symbol ++ " = data[\"" ++ symbol ++ "\"] # shape: " ++ reprShape shape
    ++ ", definition: " ++ defn ++ "\n"

/-- The fixed header piece of the synthesized source (the first
`code.append` of `generate_code`), byte for byte, including the trailing
space after `import json`. -/
def headerStr : String :=
  "\nimport os\nimport numpy as np\nimport json \nfrom gurobipy import Model, GRB, quicksum\n\n\nmodel = Model(\"OptimizationProblem\")\n\nwith open(\"data.json\", \"r\") as f:\n    data = json.load(f)\n\n"

/-- The fixed result-emission piece of the synthesized source (the last
`code.append` of `generate_code`), byte for byte. -/
def emissionTemplate : String :=
  "\nif model.status == GRB.OPTIMAL:\n    with open(\"output_solution.txt\", \"w\") as f:\n        f.write(str(model.objVal))\n    print(\"Optimal Objective Value: \", model.objVal)\nelse:\n    with open(\"output_solution.txt\", \"w\") as f:\n        f.write(model.status)\n"

/-- The print statement appended just before the result-emission piece. -/
def printObjLine : String :=
  "print(\"Optimal Objective Value: \", model.objVal)\n"

/-- Shape and definition text used for a parameter line: ground truth from
`problem_info.json` when the document is present, has a `parameters`
table, and the symbol occurs there; otherwise the fields of the state
entry (the if/else at lines 53-58 of `generate_code.py`). -/
def paramSourceFields (pinfo : Option ProblemInfo) (symbol : String)
    (v : ParamInfo) : List Nat × String :=
  match pinfo with
  | none => (v.shape, v.definition)
  | some info =>
    match info.parameters with
    | none => (v.shape, v.definition)
    | some table =>
      match table.lookup symbol with
      | some gt => (gt.shape, gt.description)
      | none => (v.shape, v.definition)

/-- One parameter-loading line of the synthesized source. -/
def paramLine (pinfo : Option ProblemInfo) (p : String × ParamInfo) : String :=
  get_param_code p.1 (paramSourceFields pinfo p.1 p.2).1
    (paramSourceFields pinfo p.1 p.2).2

/-- The list `code` built by `generate_code` before the final
`"\n".join(code)`: the appends of `generate_code.py` in program order. -/
def codePieces (state : ProblemState) (pinfo : Option ProblemInfo) : List String :=
  [headerStr]
    ++ ["\n\n### Define the parameters\n"]
    ++ state.parameters.map (paramLine pinfo)
    ++ ["\n\n### Define the variables\n"]
    ++ state.variables'.map (fun p => get_var_code p.1 p.2.shape p.2.vtype p.2.definition)
    ++ ["\n\n### Define the constraints\n"]
    ++ state.constraints.map Constraint.code
    ++ ["\n\n### Define the objective\n", state.objective.code]
    ++ ["\n\n### Optimize the model\n", "model.optimize()\n"]
    ++ ["\n\n### Output optimal objective value\n", printObjLine]
    ++ [emissionTemplate]

/-- Observable side effects of the embedded Python functions. -/
inductive Effect
  | printParamEntry (symbol : String)
  | readProblemInfo
  | writeFile (path : String) (content : String)
deriving DecidableEq, Repr

/-- Result of `generate_code`: the Problem State as left behind by the
call, the joined source text, and the effect trace. -/
structure GenerateResult where
  state : ProblemState
  code_str : String
  effects : List Effect
deriving DecidableEq, Repr

/-- Embedding of `generate_code` from `generate_code.py`.  The argument
`pinfo` is the content of `problem_dir/problem_info.json` when
`problem_dir` was given and the file exists, `none` otherwise.  The
Python function reads that file, prints each parameter entry, builds the
piece list, joins the pieces with a newline, and writes the joined text
to `dir/code.py`; it never assigns into `state`, which the embedding
records by returning the state unchanged. -/
def generate_code (state : ProblemState) (dir : String)
    (pinfo : Option ProblemInfo) : GenerateResult :=
  let code_str := joinSep ("\n") (codePieces state pinfo)
  { state := state
    code_str := code_str
    effects :=
      (if pinfo.isSome then [Effect.readProblemInfo] else [])
        ++ state.parameters.map (fun p => Effect.printParamEntry p.1)
        ++ [Effect.writeFile (dir ++ "/code.py") code_str] }

/-- File writes of an effect trace. -/
def writesOf : List Effect → List (String × String)
  | [] => []
  | Effect.writeFile p c :: es => (p, c) :: writesOf es
  | _ :: es => writesOf es

/-! ### Semantics of the emitted result-emission section

The last piece of the synthesized source is `emissionTemplate`.  Its
runtime behaviour is embedded here: `model.status` is an integer status
code in gurobipy (`GRB.OPTIMAL` is 2), `model.objVal` a number whose
`str` rendering we keep abstract, and `f.write` is the Python text-file
write, which accepts a `str` argument and raises `TypeError` on any other
argument. -/

/-- Runtime values handed to `f.write` by the emitted code. -/
inductive PyVal
  | pyStr (s : String)
  | pyInt (n : Int)
deriving DecidableEq, Repr

/-- Gurobi status code for an optimal termination. -/
def GRB_OPTIMAL : Int := 2

/-- Gurobi status code for an infeasible model. -/
def GRB_INFEASIBLE : Int := 3

/-- Gurobi status code for a feasible but not proven optimal termination. -/
def GRB_SUBOPTIMAL : Int := 13

/-- Python text-file `write`: succeeds with the written text on a `str`
argument, raises `TypeError` on any other argument. -/
def fileWrite : PyVal → Except String String
  | PyVal.pyStr s => Except.ok s
  | PyVal.pyInt _ => Except.error ("TypeError: write() argument must be str, not int")

/-- Execution of `emissionTemplate` at a terminal solver status: the
branch on `model.status == GRB.OPTIMAL` writes `str(model.objVal)`, the
else branch executes `f.write(model.status)` with the integer status.
The result is the content written to `output_solution.txt`, or the raised
exception. -/
def runEmissionSection (status : Int) (objValStr : String) : Except String String :=
  if status = GRB_OPTIMAL then fileWrite (PyVal.pyStr objValStr)
  else fileWrite (PyVal.pyInt status)

/-- Statuses with a feasible solution at hand, in the sense of the spec
phrase about recognized optimal or feasible terminal statuses: optimal,
or feasible-but-suboptimal. -/
def isOptimalOrFeasibleStatus (status : Int) : Bool :=
  status = GRB_OPTIMAL || status = GRB_SUBOPTIMAL

/-! ### Float parsing and the accuracy evaluator

`analyze_optimus_data` reads `output_solution.txt`, strips it, splits on
whitespace and applies Python `float` to the last token, treating any
exception as the file being absent.  We embed `float` on the decimal
grammar (optional sign, digits with optional fraction, optional
exponent), which covers every token the evaluator meets.  The parsed
value is kept as an exact decimal rational — an integer numerator over a
power-of-ten denominator — since no claim depends on binary floating
rounding. -/

/-- Exact decimal value of a parsed float token: the rational
`num / den`, with `den` a positive power of ten. -/
structure PyFloat where
  num : Int
  den : Nat
deriving DecidableEq, Repr

/-- Numeric value of a digit list, most significant first. -/
def digitsVal (cs : List Char) : Nat :=
  cs.foldl (fun a c => a * 10 + (c.toNat - 48)) 0

/-- Whether every character of the list is a decimal digit. -/
def allDigits (cs : List Char) : Bool :=
  cs.all (fun c => c.isDigit)

/-- Parse an unsigned mantissa into numerator and power-of-ten
denominator: digits, optionally split by one dot, with at least one
digit overall (Python accepts `12`, `12.`, `.5`, `12.5`). -/
def parseMantissa? (cs : List Char) : Option (Nat × Nat) :=
  let intPart := cs.takeWhile (fun c => c ≠ '.')
  let rest := cs.dropWhile (fun c => c ≠ '.')
  match rest with
  | [] =>
    if intPart ≠ [] ∧ allDigits intPart then some (digitsVal intPart, 1)
    else none
  | _ :: frac =>
    if frac.contains '.' then none
    else if intPart = [] ∧ frac = [] then none
    else if allDigits intPart ∧ allDigits frac then
      some (digitsVal intPart * 10 ^ frac.length + digitsVal frac, 10 ^ frac.length)
    else none

/-- Parse an exponent part (the characters after `e`/`E`): optional sign
then at least one digit. -/
def parseExpPart? : List Char → Option Int
  | [] => none
  | c :: rest =>
    if c = '+' then
      if rest ≠ [] ∧ allDigits rest then some ((digitsVal rest : Nat) : Int) else none
    else if c = '-' then
      if rest ≠ [] ∧ allDigits rest then some (-((digitsVal rest : Nat) : Int)) else none
    else
      if allDigits (c :: rest) then some ((digitsVal (c :: rest) : Nat) : Int) else none

/-- Embedding of Python `float` on the decimal grammar: returns the
parsed value, or `none` where `float` raises `ValueError`. -/
def pyFloat? (s : String) : Option PyFloat :=
  let cs := s.data
  let signAndRest : Int × List Char :=
    match cs with
    | '+' :: r => (1, r)
    | '-' :: r => (-1, r)
    | r => (1, r)
  let body := signAndRest.2
  let mant := body.takeWhile (fun c => c ≠ 'e' ∧ c ≠ 'E')
  let rest := body.dropWhile (fun c => c ≠ 'e' ∧ c ≠ 'E')
  match rest with
  | [] =>
    (parseMantissa? mant).map (fun m => { num := signAndRest.1 * (m.1 : Int), den := m.2 })
  | _ :: expPart =>
    match parseMantissa? mant, parseExpPart? expPart with
    | some m, some e =>
      match e with
      | Int.ofNat n => some { num := signAndRest.1 * (m.1 : Int) * (10 ^ n : Nat), den := m.2 }
      | Int.negSucc n => some { num := signAndRest.1 * (m.1 : Int), den := m.2 * 10 ^ (n + 1) }
    | _, _ => none

/-- Accumulator pass over the characters: collect maximal runs of
non-whitespace characters. -/
def splitWsAux : List Char → List Char → List String
  | [], acc => if acc = [] then [] else [String.mk acc.reverse]
  | c :: cs, acc =>
    if c.isWhitespace then
      if acc = [] then splitWsAux cs []
      else String.mk acc.reverse :: splitWsAux cs []
    else splitWsAux cs (c :: acc)

/-- The whitespace-separated tokens of a file content, as Python
`content.split()` produces them: maximal non-whitespace runs, no empty
tokens. -/
def pyTokens (content : String) : List String :=
  splitWsAux content.data []

/-- Embedding of `float(output_content.split()[-1])` wrapped in the
try/except of `analyze_optimus_data`: the parsed value of the last
whitespace-separated token, or `none` when the indexing or the parse
raises (empty content, or a non-numeric last token such as a solver
status word). -/
def lastTokenFloat? (content : String) : Option PyFloat :=
  match (pyTokens content).getLast? with
  | none => none
  | some t => pyFloat? t

/-- Artifacts of one run folder as seen by `analyze_optimus_data`:
content of the direct `output_solution.txt` when that file exists,
subdirectories each with the content of their own `output_solution.txt`
when that file exists, and content of `code_output.txt` when it exists. -/
structure RunFolder where
  direct : Option String
  subdirs : List (String × Option String)
  code_output : Option String
deriving DecidableEq, Repr

/-- Content of `run/m/output_solution.txt`: present when the subdirectory
`m` exists and holds the file. -/
def subdirFile (rf : RunFolder) (m : String) : Option String :=
  match rf.subdirs.lookup m with
  | some (some c) => some c
  | _ => none

/-- The subfolder loop of `analyze_optimus_data`: for each candidate
model folder in order, try to read and parse its `output_solution.txt`;
a read or parse failure moves on to the next candidate (`continue`); the
first success breaks out with the model name and value. -/
def firstSubdirHit (rf : RunFolder) : List String → Option (String × PyFloat)
  | [] => none
  | m :: ms =>
    match subdirFile rf m >>= lastTokenFloat? with
    | some v => some (m, v)
    | none => firstSubdirHit rf ms

/-- The candidate model folders: the given `model_name` alone when one
was supplied, otherwise every subdirectory of the run folder. -/
def modelsToCheck (rf : RunFolder) (model_name : Option String) : List String :=
  match model_name with
  | some m => [m]
  | none => rf.subdirs.map Prod.fst

/-- Embedding of the per-problem output resolution of
`analyze_optimus_data` (lines 125-194 of `analyze_optimus.py`): first the
direct `output_solution.txt`, then the model subfolders, then extraction
from `code_output.txt` through the external language-model call
`extract_objective_from_code_output`, embedded as the oracle argument
`extract`.  The result is the reported output objective together with
the `model_used` tag, or `none` when the problem counts as missing
output. -/
def analyze_problem_output (rf : RunFolder) (model_type : String)
    (model_name : Option String) (extract : String → Option PyFloat) :
    Option (PyFloat × String) :=
  match rf.direct >>= lastTokenFloat? with
  | some v => some (v, model_type)
  | none =>
    match firstSubdirHit rf (modelsToCheck rf model_name) with
    | some (m, v) => some (v, m)
    | none =>
      match rf.code_output with
      | some content => (extract content).map (fun v => (v, model_type ++ "_extracted"))
      | none => none

/-! ### The per-problem pipeline and the batch call

`process_single_dir` in `main.py` wraps the whole pipeline body in a
single `try`/`except Exception` and returns a string either way.  The
stage services (`create_state`, `get_objective`, `get_constraints`,
`get_constraint_formulations`, `get_objective_formulation`, `get_codes`,
`execute_and_debug`, and the checkpoint store `save_state`/`load_state`)
live in modules outside this repository slice; they are embedded as a
record of fallible collaborators, each returning `Except String` where
the Python function may raise. -/

/-- The external collaborators called by the pipeline body, in the shape
`main.py` uses them. -/
structure Collaborators where
  create_state : Except String ProblemState
  save_state : ProblemState → String → Except String Unit
  load_state : String → Except String ProblemState
  get_objective : String → List (String × ParamInfo) → Except String Objective
  get_constraints : String → List (String × ParamInfo) → Except String (List Constraint)
  get_constraint_formulations : String → List (String × ParamInfo) → List Constraint →
    Except String (List Constraint × List (String × VarInfo))
  get_objective_formulation : String → List (String × ParamInfo) →
    List (String × VarInfo) → Objective → Except String Objective
  get_codes : String → List (String × ParamInfo) → List (String × VarInfo) →
    List Constraint → Objective → Except String (List Constraint × Objective)
  execute_and_debug : ProblemState → Except String Unit
  problem_info : Option ProblemInfo

/-- The pipeline body of `process_single_dir` (the content of its `try`
block): create the state, then run objective extraction, constraint
extraction, constraint formulation, objective formulation and code
generation in sequence, checkpointing after every stage, then synthesize
the code and hand it to the execute-and-debug loop.  Any raising step
aborts the body with that exception. -/
def pipelineBody (c : Collaborators) (run_dir : String) : Except String GenerateResult := do
  let state ← c.create_state
  c.save_state state (run_dir ++ "/state_1_params.json")
  let state ← c.load_state (run_dir ++ "/state_1_params.json")
  let objective ← c.get_objective state.description state.parameters
  let state := { state with objective := objective }
  c.save_state state (run_dir ++ "/state_2_objective.json")
  let state ← c.load_state (run_dir ++ "/state_2_objective.json")
  let constraints ← c.get_constraints state.description state.parameters
  let state := { state with constraints := constraints }
  c.save_state state (run_dir ++ "/state_3_constraints.json")
  let state ← c.load_state (run_dir ++ "/state_3_constraints.json")
  let fm ← c.get_constraint_formulations state.description state.parameters state.constraints
  let state := { state with constraints := fm.1, variables' := fm.2 }
  c.save_state state (run_dir ++ "/state_4_constraints_modeled.json")
  let state ← c.load_state (run_dir ++ "/state_4_constraints_modeled.json")
  let objective ← c.get_objective_formulation state.description state.parameters
    state.variables' state.objective
  let state := { state with objective := objective }
  c.save_state state (run_dir ++ "/state_5_objective_modeled.json")
  let state ← c.load_state (run_dir ++ "/state_5_objective_modeled.json")
  let codes ← c.get_codes state.description state.parameters state.variables'
    state.constraints state.objective
  let state := { state with constraints := codes.1, objective := codes.2 }
  c.save_state state (run_dir ++ "/state_6_code.json")
  let state ← c.load_state (run_dir ++ "/state_6_code.json")
  let result := generate_code state run_dir c.problem_info
  c.execute_and_debug state
  pure result

/-- Python `str(e)` on the caught exception; the embedding carries the
message itself. -/
def str_of_exc (e : String) : String := e

/-- Embedding of `process_single_dir` from `main.py`: the pipeline body
under `try`/`except Exception`, returning the success marker on normal
completion and the error description on any exception. -/
def process_single_dir (c : Collaborators) (dir : String) : String :=
  match pipelineBody c dir with
  | Except.ok _ => "Successfully processed " ++ dir
  | Except.error e => "Error processing " ++ dir ++ ": " ++ str_of_exc e

/-- Embedding of the batch execution of `__main__` in `main.py`: one
`process_single_dir` call per problem directory, results collected in
order (the thread pool map preserves order and count). -/
def run_batch (inputs : List (Collaborators × String)) : List String :=
  inputs.map (fun p => process_single_dir p.1 p.2)

/-! ### The execute-and-debug loop, modelled from the spec

The module `execute_code.py` that defines `execute_and_debug` is not part
of this repository slice (only its caller in `main.py` is), so the loop
is modelled from the spec. -/

/-- Classification of one execution attempt, as in the spec state
machine. -/
inductive Classification
  | SUCCESS
  | SOLVER_INFEASIBLE
  | RUNTIME_ERROR
  | TIMEOUT
deriving DecidableEq, Repr

/-- Modelled from the spec: `execute_and_debug` (module
`execute_code.py`) is absent from the sources.  The loop runs attempt
`k`, classifies it with the ambient classifier `run`, stops at once on
`SUCCESS` or `SOLVER_INFEASIBLE`, and otherwise repairs and retries while
budget remains; exhausting the budget reports the last classification.
Returns the final classification and the number of attempts made. -/
def debugLoop (run : Nat → Classification) : Nat → Nat → Classification × Nat
  | 0, k => (run k, k)
  | fuel + 1, k =>
    match run k with
    | Classification.SUCCESS => (Classification.SUCCESS, k)
    | Classification.SOLVER_INFEASIBLE => (Classification.SOLVER_INFEASIBLE, k)
    | c => if fuel = 0 then (c, k) else debugLoop run fuel (k + 1)

/-! ### Section decompositions of the piece list

These name the pieces of `codePieces` before and after the constraint
section and before and after the variable section; they are spelled out
independently so that the placement of each section in the synthesized
source is a provable statement rather than a definition. -/

/-- Pieces of the synthesized source strictly before the constraint
fragments (header, parameter section, variable section, and the
constraint marker). -/
def preConstraintPieces (state : ProblemState) (pinfo : Option ProblemInfo) : List String :=
  [headerStr, "\n\n### Define the parameters\n"]
    ++ state.parameters.map (paramLine pinfo)
    ++ ["\n\n### Define the variables\n"]
    ++ state.variables'.map (fun p => get_var_code p.1 p.2.shape p.2.vtype p.2.definition)
    ++ ["\n\n### Define the constraints\n"]

/-- Pieces of the synthesized source strictly after the constraint
fragments. -/
def postConstraintPieces (state : ProblemState) : List String :=
  ["\n\n### Define the objective\n", state.objective.code,
    "\n\n### Optimize the model\n", "model.optimize()\n",
    "\n\n### Output optimal objective value\n", printObjLine, emissionTemplate]

/-- The variable-declaration pieces, one per `variables` entry. -/
def varPieces (state : ProblemState) : List String :=
  state.variables'.map (fun p => get_var_code p.1 p.2.shape p.2.vtype p.2.definition)

/-- Pieces of the synthesized source strictly before the variable
declarations. -/
def preVarPieces (state : ProblemState) (pinfo : Option ProblemInfo) : List String :=
  [headerStr, "\n\n### Define the parameters\n"]
    ++ state.parameters.map (paramLine pinfo)
    ++ ["\n\n### Define the variables\n"]

/-- Pieces of the synthesized source strictly after the variable
declarations. -/
def postVarPieces (state : ProblemState) : List String :=
  ["\n\n### Define the constraints\n"]
    ++ state.constraints.map Constraint.code
    ++ postConstraintPieces state

/-! ### Concrete fixtures -/

/-- A fully resolvable Problem State: scalar parameter `c`, binary scalar
variable `x`, one constraint, objective `c * x` maximized. -/
def S0 : ProblemState :=
  { description := "maximize the earnings"
    parameters := [("c", { shape := [], definition := "the price", value := some "84" })]
    variables' := [("x", { shape := [], vtype := "binary", definition := "the choice" })]
    constraints := [{ description := "x is at most one", code := "model.addConstr(x <= 1)\n" }]
    objective := { description := "maximize c times x",
                   code := "model.setObjective(c * x, GRB.MAXIMIZE)\n" } }

/-- A Problem State whose objective fragment references the symbol `y`,
which occurs in neither `parameters` nor `variables`. -/
def S1 : ProblemState :=
  { description := "maximize the earnings"
    parameters := [("c", { shape := [], definition := "the price", value := some "84" })]
    variables' := [("x", { shape := [], vtype := "binary", definition := "the choice" })]
    constraints := [{ description := "x is at most one", code := "model.addConstr(x <= 1)\n" }]
    objective := { description := "maximize y", code := "model.setObjective(y, GRB.MAXIMIZE)\n" } }

/-- A `problem_info.json` content that overrides the shape and definition
of parameter `c`. -/
def PI0 : ProblemInfo :=
  { parameters := some [("c", { shape := [2], description := "ground truth prices" })] }

/-- An extraction oracle that always reports the value 12. -/
def oracle12 : String → Option PyFloat := fun _ => some { num := 12, den := 1 }

/-- An extraction oracle that never reports a value. -/
def oracleNone : String → Option PyFloat := fun _ => none

/-- A classifier whose every attempt is infeasible. -/
def runInfeasible : Nat → Classification := fun _ => Classification.SOLVER_INFEASIBLE

/-- Collaborators whose constraint-extraction stage raises
`CheckpointCorrupt`; every other stage succeeds. -/
def cFail : Collaborators :=
  { create_state := Except.ok S0
    save_state := fun _ _ => Except.ok ()
    load_state := fun _ => Except.ok S0
    get_objective := fun _ _ => Except.ok S0.objective
    get_constraints := fun _ _ => Except.error ("CheckpointCorrupt")
    get_constraint_formulations := fun _ _ _ => Except.ok (S0.constraints, S0.variables')
    get_objective_formulation := fun _ _ _ _ => Except.ok S0.objective
    get_codes := fun _ _ _ _ _ => Except.ok (S0.constraints, S0.objective)
    execute_and_debug := fun _ => Except.ok ()
    problem_info := none }

/-! ## Helper lemmas -/

/-- Joining a concatenation of two nonempty piece lists splits at the
separator. -/
theorem joinSep_append (sep : String) (a b : List String) (ha : a ≠ []) (hb : b ≠ []) :
    joinSep sep (a ++ b) = joinSep sep a ++ sep ++ joinSep sep b := by
  induction a with
  | nil => exact absurd rfl ha
  | cons x xs ih =>
    cases xs with
    | nil =>
      cases b with
      | nil => exact absurd rfl hb
      | cons y ys => simp [joinSep]
    | cons z zs =>
      have h := ih (by simp)
      calc joinSep sep ((x :: z :: zs) ++ b)
          = x ++ sep ++ joinSep sep ((z :: zs) ++ b) := rfl
        _ = x ++ sep ++ (joinSep sep (z :: zs) ++ sep ++ joinSep sep b) := by rw [h]
        _ = joinSep sep (x :: z :: zs) ++ sep ++ joinSep sep b := by
            simp [joinSep, String.append_assoc]

/-- File writes distribute over concatenation of effect traces. -/
theorem writesOf_append (a b : List Effect) : writesOf (a ++ b) = writesOf a ++ writesOf b := by
  induction a with
  | nil => rfl
  | cons e es ih => cases e <;> simp [writesOf, ih]

/-- A trace of parameter prints contains no file write. -/
theorem writesOf_map_print (ps : List (String × ParamInfo)) :
    writesOf (ps.map (fun p => Effect.printParamEntry p.1)) = [] := by
  induction ps with
  | nil => rfl
  | cons p ps ih => simp [writesOf, ih]

/-- The synthesizer performs exactly one file write: the joined source
text into `dir/code.py`. -/
theorem generate_code_writes (s : ProblemState) (d : String) (pinfo : Option ProblemInfo) :
    writesOf (generate_code s d pinfo).effects
      = [(d ++ "/code.py", (generate_code s d pinfo).code_str)] := by
  cases pinfo <;>
    simp [generate_code, writesOf_append, writesOf_map_print, writesOf]

/-- The synthesized source always ends with the result-emission
template. -/
theorem generate_code_ends_with_emission (s : ProblemState) (d : String)
    (pinfo : Option ProblemInfo) :
    ∃ pre, (generate_code s d pinfo).code_str = pre ++ emissionTemplate := by
  have hsplit : codePieces s pinfo
      = ([headerStr, "\n\n### Define the parameters\n"]
          ++ s.parameters.map (paramLine pinfo)
          ++ ["\n\n### Define the variables\n"]
          ++ s.variables'.map (fun p => get_var_code p.1 p.2.shape p.2.vtype p.2.definition)
          ++ ["\n\n### Define the constraints\n"]
          ++ s.constraints.map Constraint.code
          ++ ["\n\n### Define the objective\n", s.objective.code,
              "\n\n### Optimize the model\n", "model.optimize()\n",
              "\n\n### Output optimal objective value\n", printObjLine])
        ++ [emissionTemplate] := by
    simp [codePieces]
  refine ⟨joinSep ("\n") ([headerStr, "\n\n### Define the parameters\n"]
          ++ s.parameters.map (paramLine pinfo)
          ++ ["\n\n### Define the variables\n"]
          ++ s.variables'.map (fun p => get_var_code p.1 p.2.shape p.2.vtype p.2.definition)
          ++ ["\n\n### Define the constraints\n"]
          ++ s.constraints.map Constraint.code
          ++ ["\n\n### Define the objective\n", s.objective.code,
              "\n\n### Optimize the model\n", "model.optimize()\n",
              "\n\n### Output optimal objective value\n", printObjLine]) ++ "\n", ?_⟩
  have hmain : (generate_code s d pinfo).code_str = joinSep ("\n") (codePieces s pinfo) := rfl
  rw [hmain, hsplit, joinSep_append ("\n") _ [emissionTemplate] (by simp) (by simp)]
  rfl

/-! ## Claim theorems -/

set_option maxRecDepth 8192 in
/-- Claim C1, counterexample: at the concrete state `S1`, whose objective
fragment textually references the symbol `y` although `y` occurs in
neither `parameters` nor `variables`, code synthesis does not fail: it
still writes a nonempty solver source file into the run directory. -/
theorem C1_counterexample :
    ("y").data <:+: S1.objective.code.data
    ∧ S1.parameters.lookup ("y") = none
    ∧ S1.variables'.lookup ("y") = none
    ∧ writesOf (generate_code S1 ("run") none).effects
      = [("run/code.py", (generate_code S1 ("run") none).code_str)]
    ∧ (generate_code S1 ("run") none).code_str ≠ "" := by
  refine ⟨by decide, by decide, by decide, rfl, by decide⟩

/-- Claim C1, amended: `generate_code` performs no symbol-resolution
check and has no failure path at all; for every Problem State — in
particular one whose fragment references an undeclared symbol — it emits
exactly one solver source file `dir/code.py`, and an undeclared symbol
can surface only when the generated code is executed. -/
theorem C1_no_unresolved_symbol_check (s : ProblemState) (d : String)
    (pinfo : Option ProblemInfo) :
    writesOf (generate_code s d pinfo).effects
      = [(d ++ "/code.py", (generate_code s d pinfo).code_str)] :=
  generate_code_writes s d pinfo

set_option maxRecDepth 8192 in
/-- Claim C2, counterexample: two invocations of `generate_code` on the
same Problem State `S0` produce different source texts when the problem
directory holds a `problem_info.json` overriding a parameter shape, so
the source text is not a function of the Problem State alone. -/
theorem C2_counterexample :
    (generate_code S0 ("run") (some PI0)).code_str
      ≠ (generate_code S0 ("run") none).code_str := by
  decide

/-- Claim C2, amended: the synthesized source text is a deterministic
pure function of the Problem State and of the content of
`problem_info.json` (when the problem directory is given and the file
exists); in particular it does not depend on the run directory path. -/
theorem C2_deterministic_given_problem_info (s : ProblemState) (d d' : String)
    (pinfo : Option ProblemInfo) :
    (generate_code s d pinfo).code_str = (generate_code s d' pinfo).code_str := rfl

/-- Claim C3: evaluation of the result-emission section of the
synthesized source at a non-optimal terminal status.  The section, which
every synthesized source ends with, writes the objective value on
`GRB.OPTIMAL`; on any other status — including the infeasible status 3
and the feasible-but-suboptimal status 13 — it executes
`f.write(model.status)` with the integer status code, which raises
`TypeError` instead of writing the status token. -/
theorem C3_status_write_raises :
    runEmissionSection GRB_INFEASIBLE ("84.0")
      = Except.error ("TypeError: write() argument must be str, not int")
    ∧ runEmissionSection GRB_OPTIMAL ("84.0") = Except.ok ("84.0")
    ∧ isOptimalOrFeasibleStatus GRB_SUBOPTIMAL = true
    ∧ runEmissionSection GRB_SUBOPTIMAL ("84.0")
      = Except.error ("TypeError: write() argument must be str, not int")
    ∧ ∃ pre, (generate_code S0 ("run") none).code_str = pre ++ emissionTemplate :=
  ⟨rfl, rfl, rfl, rfl, generate_code_ends_with_emission S0 ("run") none⟩

set_option maxRecDepth 8192 in
/-- Claim C9, counterexample: the effect trace of `generate_code` at the
concrete state `S0` is not just the single source-file write; it also
prints the parameter entry, so writing the source file is not the only
effect of the call. -/
theorem C9_counterexample :
    (generate_code S0 ("run") none).effects
      ≠ [Effect.writeFile ("run/code.py") ((generate_code S0 ("run") none).code_str)]
    ∧ (generate_code S0 ("run") none).effects
      = [Effect.printParamEntry ("c"),
         Effect.writeFile ("run/code.py") ((generate_code S0 ("run") none).code_str)] := by
  exact ⟨by decide, rfl⟩

/-- Claim C9, amended: `generate_code` does not mutate the Problem State
— every field of the returned state is exactly the input state — and its
only file-system write is the single source file `dir/code.py`; besides
that write it prints each parameter entry to stdout and reads
`problem_info.json` when available. -/
theorem C9_state_unchanged (s : ProblemState) (d : String) (pinfo : Option ProblemInfo) :
    (generate_code s d pinfo).state = s
    ∧ writesOf (generate_code s d pinfo).effects
      = [(d ++ "/code.py", (generate_code s d pinfo).code_str)] :=
  ⟨rfl, generate_code_writes s d pinfo⟩

/-- Claim C4: for every choice of stage collaborators and every problem
directory, `process_single_dir` returns a string that is either the
success marker or an error description — it never propagates an
exception — and the batch call returns exactly one such result per
problem. -/
theorem C4_batch_never_raises (inputs : List (Collaborators × String)) :
    (run_batch inputs).length = inputs.length
    ∧ ∀ r ∈ run_batch inputs,
        (∃ d, r = "Successfully processed " ++ d)
        ∨ ∃ d e, r = "Error processing " ++ d ++ ": " ++ e := by
  constructor
  · simp [run_batch]
  · intro r hr
    rcases List.mem_map.mp hr with ⟨p, hp, rfl⟩
    cases hpb : pipelineBody p.1 p.2 with
    | ok v => exact Or.inl ⟨p.2, by simp [process_single_dir, hpb]⟩
    | error e => exact Or.inr ⟨p.2, e, by simp [process_single_dir, hpb, str_of_exc]⟩

/-- Witness for C4: a batch containing a problem whose
constraint-extraction stage raises `CheckpointCorrupt` still yields a
result string for it, and that string is the error description. -/
theorem C4_witness :
    ((∃ d, process_single_dir cFail ("p2") = "Successfully processed " ++ d)
      ∨ ∃ d e, process_single_dir cFail ("p2") = "Error processing " ++ d ++ ": " ++ e)
    ∧ process_single_dir cFail ("p2") = "Error processing p2: CheckpointCorrupt" :=
  ⟨(C4_batch_never_raises [(cFail, "p2")]).2 (process_single_dir cFail ("p2"))
      (by simp [run_batch]),
   by decide⟩

/-- Claim C5, counterexample: with the direct `output_solution.txt`
absent, the evaluator derives a reported objective from
`code_output.txt` through the extraction call — two run folders with
identical `output_solution.txt` state but different `code_output.txt`
give different reported objectives, so the output objective is not
derived exclusively from `output_solution.txt`. -/
theorem C5_counterexample :
    analyze_problem_output ⟨none, [], some ("log")⟩ ("o3") none oracle12
      = some ({ num := 12, den := 1 }, "o3_extracted")
    ∧ analyze_problem_output ⟨none, [], none⟩ ("o3") none oracle12 = none :=
  ⟨rfl, rfl⟩

/-- Claim C5, amended: the direct `output_solution.txt` has priority —
whenever it exists and its last whitespace token parses as a float, the
reported objective derives from it alone, unaffected by the model
subfolders and by `code_output.txt`; only when it is absent or
unparseable does the evaluator fall back to the model subfolders and
then to extraction from `code_output.txt`. -/
theorem C5_direct_output_priority (s : String) (v : PyFloat) (mt : String)
    (mn : Option String) (subs : List (String × Option String))
    (co : Option String) (extract : String → Option PyFloat)
    (h : lastTokenFloat? s = some v) :
    analyze_problem_output ⟨some s, subs, co⟩ mt mn extract = some (v, mt) := by
  simp [analyze_problem_output, Option.bind, h]

/-- Witness for C5: a run folder whose direct output file reads `84.0`
reports 84.0 with the model-type tag, although a subfolder output and a
code output are present. -/
theorem C5_witness :
    lastTokenFloat? ("84.0") = some { num := 840, den := 10 }
    ∧ analyze_problem_output
        ⟨some ("84.0"), [("m", some ("99"))], some ("log")⟩ ("o3") none oracle12
      = some ({ num := 840, den := 10 }, "o3") :=
  ⟨by decide,
   C5_direct_output_priority ("84.0") { num := 840, den := 10 } ("o3") none
     [("m", some ("99"))] (some ("log")) oracle12 (by decide)⟩

/-- Claim C6 (modelled from the spec, since `execute_code.py` is not in
the repository slice): an execution classified `SOLVER_INFEASIBLE` is
never followed by a repair attempt — whatever the attempt budget, the
loop stops after attempt 1 and reports `SOLVER_INFEASIBLE` as the final
outcome. -/
theorem C6_infeasible_never_retried (run : Nat → Classification) (budget : Nat)
    (h : run 1 = Classification.SOLVER_INFEASIBLE) :
    debugLoop run budget 1 = (Classification.SOLVER_INFEASIBLE, 1) := by
  cases budget with
  | zero => simp [debugLoop, h]
  | succ n => simp [debugLoop, h]

/-- Witness for C6: with a classifier that reports infeasibility and a
budget of 3, the loop ends at attempt 1 with `SOLVER_INFEASIBLE`. -/
theorem C6_witness :
    runInfeasible 1 = Classification.SOLVER_INFEASIBLE
    ∧ debugLoop runInfeasible 3 1 = (Classification.SOLVER_INFEASIBLE, 1) :=
  ⟨rfl, C6_infeasible_never_retried runInfeasible 3 rfl⟩

/-- Claim C7: the piece list of the synthesized source is exactly the
pieces before the constraint section, followed by the code fragments of
`constraints` in list order — none reordered, dropped or duplicated —
followed by the pieces after the constraint section; at the string
level, for a state with at least one constraint, the source text splits
accordingly around the newline-joined constraint fragments. -/
theorem C7_constraints_in_insertion_order (s : ProblemState) (d : String)
    (pinfo : Option ProblemInfo) (h : s.constraints ≠ []) :
    codePieces s pinfo
      = preConstraintPieces s pinfo ++ s.constraints.map Constraint.code
          ++ postConstraintPieces s
    ∧ (generate_code s d pinfo).code_str
      = joinSep ("\n") (preConstraintPieces s pinfo) ++ "\n"
        ++ joinSep ("\n") (s.constraints.map Constraint.code) ++ "\n"
        ++ joinSep ("\n") (postConstraintPieces s) := by
  have hdecomp : codePieces s pinfo
      = preConstraintPieces s pinfo ++ (s.constraints.map Constraint.code
          ++ postConstraintPieces s) := by
    simp [codePieces, preConstraintPieces, postConstraintPieces, printObjLine]
  have hpre : preConstraintPieces s pinfo ≠ [] := by simp [preConstraintPieces]
  have hmid : s.constraints.map Constraint.code ≠ [] := by
    simpa using h
  have hpost : postConstraintPieces s ≠ [] := by simp [postConstraintPieces]
  constructor
  · simpa using hdecomp
  · have hmain : (generate_code s d pinfo).code_str = joinSep ("\n") (codePieces s pinfo) := rfl
    rw [hmain, hdecomp,
      joinSep_append ("\n") _ _ hpre (by simp [hmid]),
      joinSep_append ("\n") _ _ hmid hpost]
    simp [String.append_assoc]

/-- Witness for C7: the decomposition evaluated at the concrete state
`S0`, which has one constraint. -/
theorem C7_witness :
    S0.constraints ≠ []
    ∧ (codePieces S0 none
        = preConstraintPieces S0 none ++ S0.constraints.map Constraint.code
            ++ postConstraintPieces S0
      ∧ (generate_code S0 ("run") none).code_str
        = joinSep ("\n") (preConstraintPieces S0 none) ++ "\n"
          ++ joinSep ("\n") (S0.constraints.map Constraint.code) ++ "\n"
          ++ joinSep ("\n") (postConstraintPieces S0)) :=
  ⟨by decide, C7_constraints_in_insertion_order S0 ("run") none (by decide)⟩

/-- Claim C8: the variable-declaration section of the synthesized source
has exactly one declaration per `variables` entry, placed between the
variable marker and the constraint marker; a variable with empty shape
is declared with scalar `model.addVar`, and a variable with nonempty
shape with `model.addVars` listing its dimension sizes. -/
theorem C8_one_declaration_per_variable (s : ProblemState)
    (pinfo : Option ProblemInfo) (sym vt defn : String) (shape : List Nat) :
    codePieces s pinfo = preVarPieces s pinfo ++ varPieces s ++ postVarPieces s
    ∧ (varPieces s).length = s.variables'.length
    ∧ (shape = [] → get_var_code sym shape vt defn = scalarDecl sym vt)
    ∧ (shape ≠ [] → get_var_code sym shape vt defn = familyDecl sym shape vt) := by
  refine ⟨?_, ?_, ?_, ?_⟩
  · simp [codePieces, preVarPieces, varPieces, postVarPieces, postConstraintPieces,
      printObjLine]
  · simp [varPieces]
  · intro hsh
    simp [get_var_code, scalarDecl, hsh]
  · intro hsh
    simp [get_var_code, familyDecl, hsh]

/-- Witness for C8: the decomposition at the concrete state `S0`, the
scalar declaration at shape `[]`, and the indexed-family declaration at
shape `[2, 3]`. -/
theorem C8_witness :
    codePieces S0 none = preVarPieces S0 none ++ varPieces S0 ++ postVarPieces S0
    ∧ (varPieces S0).length = S0.variables'.length
    ∧ get_var_code ("x") [] ("binary") ("dd") = scalarDecl ("x") ("binary")
    ∧ get_var_code ("w") [2, 3] ("integer") ("dd") = familyDecl ("w") [2, 3] ("integer") :=
  ⟨(C8_one_declaration_per_variable S0 none ("x") ("binary") ("dd") []).1,
   (C8_one_declaration_per_variable S0 none ("x") ("binary") ("dd") []).2.1,
   (C8_one_declaration_per_variable S0 none ("x") ("binary") ("dd") []).2.2.1 rfl,
   (C8_one_declaration_per_variable S0 none ("w") ("integer") ("dd") [2, 3]).2.2.2
     (by decide)⟩

/-- The subfolder scan depends only on the subdirectory table, not on
the direct output file or on `code_output.txt`. -/
theorem firstSubdirHit_congr (subs : List (String × Option String))
    (d1 d2 : Option String) (c1 c2 : Option String) (ms : List String) :
    firstSubdirHit ⟨d1, subs, c1⟩ ms = firstSubdirHit ⟨d2, subs, c2⟩ ms := by
  induction ms with
  | nil => rfl
  | cons m ms ih => simp [firstSubdirHit, subdirFile, ih]

/-- Claim C10: when `output_solution.txt` exists but its last
whitespace-separated token does not parse as a float, the evaluator
treats the file exactly as if it were absent — the result is the same as
for a run folder without that file, computed from the subfolder and
`code_output.txt` fallbacks — and when no fallback yields a number the
problem counts as missing output (`none`), without raising. -/
theorem C10_unparseable_output_treated_absent (s : String) (mt : String)
    (mn : Option String) (subs : List (String × Option String))
    (co : Option String) (extract : String → Option PyFloat)
    (h : lastTokenFloat? s = none) :
    analyze_problem_output ⟨some s, subs, co⟩ mt mn extract
      = analyze_problem_output ⟨none, subs, co⟩ mt mn extract
    ∧ analyze_problem_output ⟨some s, [], none⟩ mt mn extract = none := by
  constructor
  · have hf := firstSubdirHit_congr subs (some s) none co co
    have hm : modelsToCheck ⟨some s, subs, co⟩ mn = modelsToCheck ⟨none, subs, co⟩ mn := rfl
    simp [analyze_problem_output, Option.bind, h, hm, hf]
  · cases mn with
    | none =>
      simp [analyze_problem_output, Option.bind, h, modelsToCheck, firstSubdirHit]
    | some m =>
      simp [analyze_problem_output, Option.bind, h, modelsToCheck, firstSubdirHit,
        subdirFile]

/-- Witness for C10: a direct output file containing a status report is
treated as absent both with fallbacks present and with none. -/
theorem C10_witness :
    lastTokenFloat? ("Model status: INFEASIBLE") = none
    ∧ analyze_problem_output
        ⟨some ("Model status: INFEASIBLE"), [("m", some ("2.5"))], some ("log")⟩
        ("o3") none oracle12
      = analyze_problem_output ⟨none, [("m", some ("2.5"))], some ("log")⟩ ("o3") none oracle12
    ∧ analyze_problem_output ⟨some ("Model status: INFEASIBLE"), [], none⟩ ("o3") none oracle12
      = none :=
  ⟨by decide,
   (C10_unparseable_output_treated_absent ("Model status: INFEASIBLE") ("o3") none
     [("m", some ("2.5"))] (some ("log")) oracle12 (by decide)).1,
   (C10_unparseable_output_treated_absent ("Model status: INFEASIBLE") ("o3") none
     [("m", some ("2.5"))] (some ("log")) oracle12 (by decide)).2⟩
